import Mathlib

/-!
Verification development for "Mac, Where's My Bootstrap": a shallow
embedding of the repository's CLI test harness
(`tests/src/xpc_connection_tester.c`) and of the port-discovery /
raw-pipe-messaging core whose entry points are declared in
`XPC2Program-Bridging-Header.h`.  The core's implementations live in the
host operating system, so they are modelled from the specification's
contracts; the CLI harness is embedded directly from its C source.
-/

namespace XpcConnectionTester

/-- Observable effects of one run of the CLI harness, in program order. -/
inductive Event where
  | printUsage
  | createDictionary
  | createMachService (name : String)
  | perrorCreate
  | setEventHandler
  | resume
  | sendMessage
  deriving DecidableEq, Repr

/-- Outcome of one run of the CLI harness: the ordered effects and the
process exit status. -/
structure RunResult where
  events : List Event
  exitStatus : Int
  deriving DecidableEq, Repr

/-- Shallow embedding of `main` from `tests/src/xpc_connection_tester.c`.
`argv` is the argument vector (`argv.length = argc`, element 0 the program
name).  `connIsNull name` models whether the host's
`xpc_connection_create_mach_service` returns NULL for that service name.
The `xpc_connection_send_message` call is commented out in the source, so
no `sendMessage` event is ever emitted. -/
def main (argv : List String) (connIsNull : String → Bool) : RunResult :=
  if argv.length < 2 then
    { events := [Event.printUsage], exitStatus := -1 }
  else
    let name := argv.getD 1 ""
    let perrorEvents := if connIsNull name then [Event.perrorCreate] else []
    { events := [Event.createDictionary, Event.createMachService name]
        ++ perrorEvents ++ [Event.setEventHandler, Event.resume],
      exitStatus := 0 }

end XpcConnectionTester

namespace Core

/-- Mach port identifiers are unsigned integers naming kernel endpoints. -/
abbrev mach_port_t := Nat

/-- Task handles are opaque identifiers for execution contexts. -/
abbrev task_t := Nat

/-- Kernel return codes (the KernelError numeric domain). -/
abbrev kern_return_t := Int

/-- The kernel success code. -/
def KERN_SUCCESS : kern_return_t := 0

/-- Request/Reply Objects are dictionary-shaped serializable values whose
internal shape the core treats as opaque. -/
inductive xpc_object_t where
  | dict (entries : List (String × String))
  deriving DecidableEq, Repr

/-- The minimal (empty) Request Object the Probe Driver sends. -/
def emptyRequest : xpc_object_t := xpc_object_t.dict []

/-- Modelled from the spec: the kernel state backing `mach_ports_lookup`,
whose implementation is absent from the repository (the bridging header
only declares it).  A valid, inspectable task maps to the snapshot list of
its registered ports; an invalid or inaccessible task maps to `none`
together with a nonzero kernel return code. -/
structure Kernel where
  taskPorts : task_t → Option (List mach_port_t)
  lookupErr : task_t → kern_return_t
  lookupErr_nz : ∀ t, lookupErr t ≠ 0

/-- Result of a port-enumeration call: on success the kernel-allocated
sequence of ports together with the out-parameter count, on failure the
kernel's numeric return code surfaced verbatim. -/
inductive LookupResult where
  | success (ports : List mach_port_t) (portsCnt : Nat)
  | failure (kr : kern_return_t)
  deriving DecidableEq, Repr

/-- Modelled from the spec: `mach_ports_lookup`, the Port Enumerator
(implementation absent from the repository; declared at
`XPC2Program-Bridging-Header.h:13`).  On success it returns the task's
port snapshot and writes the element count into the count out-parameter;
on failure it returns the kernel's code and allocates no storage. -/
def mach_ports_lookup (k : Kernel) (task : task_t) : LookupResult :=
  match k.taskPorts task with
  | some ps => LookupResult.success ps ps.length
  | none => LookupResult.failure (k.lookupErr task)

/-- A Pipe Channel handle: the raw messaging endpoint recorded as the
(port, flags) pair it was constructed from. -/
structure xpc_pipe_t where
  port : mach_port_t
  flags : Nat
  deriving DecidableEq, Repr

/-- Modelled from the spec: `xpc_pipe_create_from_port` (implementation
absent from the repository; declared at `XPC2Program-Bridging-Header.h:10`).
Construction performs no validation beyond what the kernel checks and the
flags value is passed through uninterpreted: the handle is built
unconditionally from the pair. -/
def xpc_pipe_create_from_port (port : mach_port_t) (flags : Nat) : xpc_pipe_t :=
  { port := port, flags := flags }

/-- Outcome the host IPC subsystem produces for one routine exchange on a
valid port: either a Reply Object, or a nonzero RoutineError code. -/
inductive RoutineOutcome where
  | ok (reply : xpc_object_t)
  | err (code : Int) (nz : code ≠ 0)

/-- Modelled from the spec: the host-system behavior the core talks to.
`kernel` answers enumeration; `portValid` is the kernel-tracked validity of
a send right; `routineOutcome` is the host's reply behavior on valid ports. -/
structure OS where
  kernel : Kernel
  portValid : mach_port_t → Bool
  routineOutcome : mach_port_t → xpc_object_t → RoutineOutcome

/-- The RoutineError code an exchange on an invalidated or unauthorized
port fails with (a nonzero code in the routine-error domain). -/
def EPIPE_INVALID : Int := 22

/-- One wire-level event of a routine call: a message send or a reply
receive on a port. -/
inductive WireOp where
  | send (port : mach_port_t) (message : xpc_object_t)
  | recv (port : mach_port_t)
  deriving DecidableEq, Repr

/-- Modelled from the spec: `xpc_pipe_routine` (implementation absent from
the repository; declared at `XPC2Program-Bridging-Header.h:11`), with its
wire activity made explicit.  It performs exactly one synchronous
send-then-receive exchange and returns the C pair (status code, reply
out-parameter): status 0 with the reply populated on success, a nonzero
code with no reply on failure.  A channel whose underlying port is invalid
fails here, on first use, with `EPIPE_INVALID`. -/
def xpc_pipe_routine_traced (os : OS) (pipe : xpc_pipe_t) (message : xpc_object_t) :
    (Int × Option xpc_object_t) × List WireOp :=
  let trace := [WireOp.send pipe.port message, WireOp.recv pipe.port]
  if os.portValid pipe.port then
    match os.routineOutcome pipe.port message with
    | RoutineOutcome.ok reply => ((0, some reply), trace)
    | RoutineOutcome.err code _ => ((code, none), trace)
  else ((EPIPE_INVALID, none), trace)

/-- The result of `xpc_pipe_routine` as the caller sees it: the status code
and the reply out-parameter. -/
def xpc_pipe_routine (os : OS) (pipe : xpc_pipe_t) (message : xpc_object_t) :
    Int × Option xpc_object_t :=
  (xpc_pipe_routine_traced os pipe message).1

/-- Modelled from the spec: `xpc_strerror` (implementation absent from the
repository; declared at `XPC2Program-Bridging-Header.h:12`), the dedicated
translation from a routine-error code to a descriptive human-readable
string. -/
def xpc_strerror (error : Int) : String :=
  "xpc pipe routine error " ++ toString error

/-- A sequence of `invoke` calls issued in order on one channel handle,
each yielding its own (status, reply) outcome. -/
def invokeSequence (os : OS) (pipe : xpc_pipe_t) :
    List xpc_object_t → List (Int × Option xpc_object_t)
  | [] => []
  | m :: rest => xpc_pipe_routine os pipe m :: invokeSequence os pipe rest

/-- Resource-management steps the Probe Driver performs, in order: the
kernel-side allocation of the port-set storage, its release, opening the
channel and invoking the routine. -/
inductive ProbeStep where
  | allocPortSet
  | releasePortSet
  | openChannel
  | invokeRoutine
  deriving DecidableEq, Repr

/-- The Probe Driver's report: enumeration failure with the verbatim
kernel code, an empty port set, a successful exchange with its Reply
Object, or a failed exchange with the translated description. -/
inductive ProbeReport where
  | enumerationFailed (kr : kern_return_t)
  | noPorts
  | succeeded (reply : xpc_object_t)
  | failed (description : String)
  deriving DecidableEq, Repr

/-- Modelled from the spec: the Probe Driver (§4.4, absent from the
repository) applied to an enumerated task.  It enumerates the task's
ports, opens a channel on the first port, invokes once with the empty
Request Object, and reports the outcome, translating any nonzero routine
code through `xpc_strerror`.  The port-set storage is released on every
exit path after a successful enumeration, and a failed enumeration
allocates nothing. -/
def probe (os : OS) (task : task_t) : ProbeReport × List ProbeStep :=
  match mach_ports_lookup os.kernel task with
  | LookupResult.failure kr => (ProbeReport.enumerationFailed kr, [])
  | LookupResult.success ports _ =>
    match ports with
    | [] => (ProbeReport.noPorts, [ProbeStep.allocPortSet, ProbeStep.releasePortSet])
    | p :: _ =>
      let pipe := xpc_pipe_create_from_port p 0
      let res := xpc_pipe_routine os pipe emptyRequest
      let trace := [ProbeStep.allocPortSet, ProbeStep.openChannel,
        ProbeStep.invokeRoutine, ProbeStep.releasePortSet]
      match res with
      | (code, some reply) =>
        if code = 0 then (ProbeReport.succeeded reply, trace)
        else (ProbeReport.failed (xpc_strerror code), trace)
      | (code, none) => (ProbeReport.failed (xpc_strerror code), trace)

/-- A concrete kernel for instantiating the universally quantified
theorems: task 1 is valid with registered ports 100 and 200, every other
task is inaccessible and fails with kernel code 5. -/
def demoKernel : Kernel where
  taskPorts := fun t => if t = 1 then some [100, 200] else none
  lookupErr := fun _ => 5
  lookupErr_nz := fun _ => by norm_num

/-- A concrete host where port 100 carries a valid send right and every
routine exchange on a valid port succeeds with a small reply dictionary. -/
def demoOS : OS where
  kernel := demoKernel
  portValid := fun p => p == 100
  routineOutcome := fun _ _ => RoutineOutcome.ok (xpc_object_t.dict [("status", "ok")])

/-- A concrete host where every port is valid but every routine exchange
fails with the nonzero routine-error code 89. -/
def demoOSFail : OS where
  kernel := demoKernel
  portValid := fun _ => true
  routineOutcome := fun _ _ => RoutineOutcome.err 89 (by decide)

end Core

namespace XpcConnectionTester

/-- C1: with zero service-name arguments (argc < 2) the CLI prints only
the "service name missing" usage message, exits with the negative status
-1, and attempts no enumeration or connection before exiting. -/
theorem missing_arg_usage_and_exit (argv : List String) (connIsNull : String → Bool)
    (h : argv.length < 2) :
    (main argv connIsNull).exitStatus = -1 ∧
    (main argv connIsNull).events = [Event.printUsage] ∧
    (∀ name, Event.createMachService name ∉ (main argv connIsNull).events) ∧
    Event.resume ∉ (main argv connIsNull).events := by
  simp [main, h]

/-- Witness for C1 at the concrete empty-argument invocation. -/
theorem missing_arg_usage_and_exit_witness :
    (["xpc_connection_tester"] : List String).length < 2 ∧
    (main ["xpc_connection_tester"] (fun _ => false)).exitStatus = -1 := by
  refine ⟨by decide, ?_⟩
  exact (missing_arg_usage_and_exit ["xpc_connection_tester"] (fun _ => false)
    (by decide)).1

/-- C2: with at least one argument the CLI returns exit status 0
unconditionally (for every host behavior of the connection call), creates
the request dictionary, and never sends it. -/
theorem arg_present_exit_zero_no_send (argv : List String) (connIsNull : String → Bool)
    (h : 2 ≤ argv.length) :
    (main argv connIsNull).exitStatus = 0 ∧
    Event.createDictionary ∈ (main argv connIsNull).events ∧
    Event.sendMessage ∉ (main argv connIsNull).events := by
  have h' : ¬ argv.length < 2 := by omega
  by_cases hc : connIsNull (argv.getD 1 "") = true <;>
    simp [main, h', hc]

/-- Witness for C2 at a concrete invocation with one service name. -/
theorem arg_present_exit_zero_no_send_witness :
    2 ≤ (["xpc_connection_tester", "com.apple.demo"] : List String).length ∧
    (main ["xpc_connection_tester", "com.apple.demo"] (fun _ => false)).exitStatus = 0 := by
  refine ⟨by decide, ?_⟩
  exact (arg_present_exit_zero_no_send ["xpc_connection_tester", "com.apple.demo"]
    (fun _ => false) (by decide)).1

/-- C3: when the connection call returns NULL the CLI prints the perror
diagnostic but does not exit: it still registers the event handler and
resumes on the NULL handle, and returns status 0. -/
theorem null_connection_continues (argv : List String) (connIsNull : String → Bool)
    (h : 2 ≤ argv.length) (hnull : connIsNull (argv.getD 1 "") = true) :
    main argv connIsNull =
      { events := [Event.createDictionary, Event.createMachService (argv.getD 1 ""),
          Event.perrorCreate, Event.setEventHandler, Event.resume],
        exitStatus := 0 } := by
  have h' : ¬ argv.length < 2 := by omega
  simp only [List.getD_eq_getElem?_getD] at hnull
  simp [main, h', hnull]

/-- Witness for C3 at a concrete invocation whose connection call yields
NULL. -/
theorem null_connection_continues_witness :
    main ["xpc_connection_tester", "com.apple.demo"] (fun _ => true) =
      { events := [Event.createDictionary, Event.createMachService "com.apple.demo",
          Event.perrorCreate, Event.setEventHandler, Event.resume],
        exitStatus := 0 } :=
  null_connection_continues ["xpc_connection_tester", "com.apple.demo"]
    (fun _ => true) (by decide) rfl

end XpcConnectionTester

namespace Core

/-- The translated error string is never empty: it always carries the
descriptive prefix. -/
theorem xpc_strerror_ne_empty (e : Int) : xpc_strerror e ≠ "" := by
  intro h
  have h2 := congrArg String.length h
  simp [xpc_strerror, String.length_append] at h2
  exact absurd h2.1 (by decide)

/-- Case analysis on one routine call: either it succeeds with status 0
and a populated reply, or it fails with a nonzero status and no reply. -/
theorem xpc_pipe_routine_cases (os : OS) (pipe : xpc_pipe_t) (message : xpc_object_t) :
    (∃ reply, xpc_pipe_routine os pipe message = (0, some reply)) ∨
    ((xpc_pipe_routine os pipe message).1 ≠ 0 ∧
      (xpc_pipe_routine os pipe message).2 = none) := by
  unfold xpc_pipe_routine xpc_pipe_routine_traced
  by_cases hv : os.portValid pipe.port = true
  · simp only [hv, if_true]
    cases hout : os.routineOutcome pipe.port message with
    | ok reply => exact Or.inl ⟨reply, rfl⟩
    | err code nz => exact Or.inr ⟨nz, rfl⟩
  · simp only [hv, if_false]
    exact Or.inr ⟨by norm_num [EPIPE_INVALID], rfl⟩

/-- C4: on success, `mach_ports_lookup` returns a count equal to the
number of port identifiers in the returned sequence. -/
theorem mach_ports_lookup_count_eq_length (k : Kernel) (task : task_t)
    (ports : List mach_port_t) (portsCnt : Nat)
    (h : mach_ports_lookup k task = LookupResult.success ports portsCnt) :
    portsCnt = ports.length := by
  unfold mach_ports_lookup at h
  cases hk : k.taskPorts task with
  | none => rw [hk] at h; exact LookupResult.noConfusion h
  | some ps =>
    rw [hk] at h
    injection h with h1 h2
    rw [← h2, ← h1]

/-- Witness for C4 on the concrete kernel: task 1 enumerates to two ports
and the returned count is 2. -/
theorem mach_ports_lookup_count_eq_length_witness :
    mach_ports_lookup demoKernel 1 = LookupResult.success [100, 200] 2 ∧
    2 = ([100, 200] : List mach_port_t).length :=
  ⟨rfl, mach_ports_lookup_count_eq_length demoKernel 1 [100, 200] 2 rfl⟩

/-- C6: a zero return code from the routine invoker implies the reply
out-parameter has been populated with a Reply Object. -/
theorem xpc_pipe_routine_zero_yields_reply (os : OS) (pipe : xpc_pipe_t)
    (message : xpc_object_t) (h : (xpc_pipe_routine os pipe message).1 = 0) :
    ∃ reply, (xpc_pipe_routine os pipe message).2 = some reply := by
  rcases xpc_pipe_routine_cases os pipe message with ⟨reply, hr⟩ | ⟨hne, _⟩
  · exact ⟨reply, by rw [hr]⟩
  · exact absurd h hne

/-- Witness for C6 on the concrete host: the exchange on valid port 100
returns status 0 and a populated reply. -/
theorem xpc_pipe_routine_zero_yields_reply_witness :
    (xpc_pipe_routine demoOS (xpc_pipe_create_from_port 100 0) emptyRequest).1 = 0 ∧
    ∃ reply,
      (xpc_pipe_routine demoOS (xpc_pipe_create_from_port 100 0) emptyRequest).2 =
        some reply :=
  ⟨rfl, xpc_pipe_routine_zero_yields_reply demoOS (xpc_pipe_create_from_port 100 0)
    emptyRequest rfl⟩

/-- C8: channel construction validates nothing — for every port and flags
value it unconditionally builds the (port, flags) handle, and a channel on
an invalid port fails only on first use, with the nonzero routine code
`EPIPE_INVALID`. -/
theorem pipe_construction_is_lazy (os : OS) (port : mach_port_t) (flags : Nat)
    (message : xpc_object_t) (hinv : os.portValid port = false) :
    xpc_pipe_create_from_port port flags = { port := port, flags := flags } ∧
    (xpc_pipe_routine os (xpc_pipe_create_from_port port flags) message).1 =
      EPIPE_INVALID ∧
    EPIPE_INVALID ≠ 0 := by
  refine ⟨rfl, ?_, by norm_num [EPIPE_INVALID]⟩
  unfold xpc_pipe_routine xpc_pipe_routine_traced xpc_pipe_create_from_port
  simp [hinv]

/-- Witness for C8 on the concrete host: port 7 has no valid send right,
construction still yields the handle and the first use fails. -/
theorem pipe_construction_is_lazy_witness :
    demoOS.portValid 7 = false ∧
    (xpc_pipe_routine demoOS (xpc_pipe_create_from_port 7 3) emptyRequest).1 =
      EPIPE_INVALID :=
  ⟨rfl, (pipe_construction_is_lazy demoOS 7 3 emptyRequest rfl).2.1⟩

/-- C9: every routine call performs exactly one synchronous
send-then-receive exchange — on every path, success or failure, the wire
trace is exactly one send followed by one receive, never a second
exchange. -/
theorem xpc_pipe_routine_single_exchange (os : OS) (pipe : xpc_pipe_t)
    (message : xpc_object_t) :
    (xpc_pipe_routine_traced os pipe message).2 =
      [WireOp.send pipe.port message, WireOp.recv pipe.port] := by
  unfold xpc_pipe_routine_traced
  by_cases hv : os.portValid pipe.port = true
  · simp only [hv, if_true]
    cases os.routineOutcome pipe.port message <;> rfl
  · simp [hv]

/-- C5: the Probe Driver releases the port-set storage exactly once on
every exit path after a successful enumeration, and a failed enumeration
allocates no storage requiring release. -/
theorem portset_released_exactly_once (os : OS) (task : task_t) :
    ((probe os task).2.count ProbeStep.releasePortSet =
        (probe os task).2.count ProbeStep.allocPortSet) ∧
    (∀ ports cnt,
        mach_ports_lookup os.kernel task = LookupResult.success ports cnt →
        (probe os task).2.count ProbeStep.releasePortSet = 1) ∧
    (∀ kr, mach_ports_lookup os.kernel task = LookupResult.failure kr →
        (probe os task).2 = []) := by
  cases hk : mach_ports_lookup os.kernel task with
  | failure kr =>
    have hp : probe os task = (ProbeReport.enumerationFailed kr, []) := by
      unfold probe
      rw [hk]
    refine ⟨by simp [hp], ?_, ?_⟩
    · intro ports cnt hc
      exact LookupResult.noConfusion hc
    · intro kr2 hc
      simp [hp]
  | success ports cnt =>
    have hp2 : (probe os task).2 = [ProbeStep.allocPortSet, ProbeStep.releasePortSet] ∨
        (probe os task).2 = [ProbeStep.allocPortSet, ProbeStep.openChannel,
          ProbeStep.invokeRoutine, ProbeStep.releasePortSet] := by
      cases ports with
      | nil =>
        left
        unfold probe
        rw [hk]
      | cons p rest =>
        right
        rcases hres : xpc_pipe_routine os (xpc_pipe_create_from_port p 0) emptyRequest
          with ⟨code, rep⟩
        unfold probe
        rw [hk]
        simp only [hres]
        cases rep with
        | some reply => by_cases hc : code = 0 <;> simp [hc]
        | none => rfl
    refine ⟨?_, ?_, ?_⟩
    · rcases hp2 with hp | hp <;> rw [hp] <;> decide
    · intro ps c hc
      rcases hp2 with hp | hp <;> rw [hp] <;> decide
    · intro kr hc
      exact LookupResult.noConfusion hc

/-- Witness for C5 on the concrete host: the successful probe of task 1
releases once, and the failed enumeration of task 0 leaves no storage. -/
theorem portset_released_exactly_once_witness :
    (probe demoOS 1).2.count ProbeStep.releasePortSet = 1 ∧
    (probe demoOS 0).2 = [] :=
  ⟨(portset_released_exactly_once demoOS 1).2.1 [100, 200] 2 rfl,
   (portset_released_exactly_once demoOS 0).2.2 5 rfl⟩

/-- C7: a failing routine invoke inside the Probe Driver is reported as
the string translated by `xpc_strerror`, never the bare integer code, and
a probe over a successfully enumerated port either succeeds with a Reply
Object or fails with a non-empty translated string. -/
theorem probe_failure_reported_via_strerror (os : OS) (task : task_t)
    (p : mach_port_t) (rest : List mach_port_t) (cnt : Nat)
    (henum : mach_ports_lookup os.kernel task = LookupResult.success (p :: rest) cnt) :
    (∀ code,
        (xpc_pipe_routine os (xpc_pipe_create_from_port p 0) emptyRequest).1 = code →
        code ≠ 0 →
        (probe os task).1 = ProbeReport.failed (xpc_strerror code) ∧
          xpc_strerror code ≠ "") ∧
    ((∃ reply, (probe os task).1 = ProbeReport.succeeded reply) ∨
      (∃ code, code ≠ 0 ∧
        (probe os task).1 = ProbeReport.failed (xpc_strerror code) ∧
        xpc_strerror code ≠ "")) := by
  rcases xpc_pipe_routine_cases os (xpc_pipe_create_from_port p 0) emptyRequest
    with ⟨reply, hr⟩ | ⟨hne, hnone⟩
  · have hp : (probe os task).1 = ProbeReport.succeeded reply := by
      unfold probe
      rw [henum]
      simp [hr]
    constructor
    · intro c hc hcnz
      rw [hr] at hc
      exact absurd hc.symm hcnz
    · exact Or.inl ⟨reply, hp⟩
  · obtain ⟨code, hcode⟩ : ∃ c,
        xpc_pipe_routine os (xpc_pipe_create_from_port p 0) emptyRequest = (c, none) :=
      ⟨(xpc_pipe_routine os (xpc_pipe_create_from_port p 0) emptyRequest).1,
        by rw [← hnone]⟩
    have hcode1 : (xpc_pipe_routine os (xpc_pipe_create_from_port p 0) emptyRequest).1 =
        code := by
      rw [hcode]
    have hnz : code ≠ 0 := hcode1 ▸ hne
    have hp : (probe os task).1 = ProbeReport.failed (xpc_strerror code) := by
      unfold probe
      rw [henum]
      simp only [hcode]
    constructor
    · intro c hc hcnz
      have hceq : c = code := by rw [← hc, hcode1]
      subst hceq
      exact ⟨hp, xpc_strerror_ne_empty c⟩
    · exact Or.inr ⟨code, hnz, hp, xpc_strerror_ne_empty code⟩

/-- Witness for C7 on the concrete always-failing host: the probe of task
1 reports the failure through the translated, non-empty error string. -/
theorem probe_failure_reported_via_strerror_witness :
    (probe demoOSFail 1).1 = ProbeReport.failed (xpc_strerror 89) ∧
    xpc_strerror 89 ≠ "" :=
  (probe_failure_reported_via_strerror demoOSFail 1 100 [200] 2 rfl).1 89 rfl
    (by decide)

/-- C10: repeated invoke calls on one still-valid channel handle are
independent exchanges: a sequence of calls distributes over concatenation,
and the i-th outcome equals that of a fresh single call with the same
message, with no hidden state carried between calls. -/
theorem repeated_invoke_independent (os : OS) (pipe : xpc_pipe_t) :
    (∀ ms₁ ms₂, invokeSequence os pipe (ms₁ ++ ms₂) =
        invokeSequence os pipe ms₁ ++ invokeSequence os pipe ms₂) ∧
    (∀ msgs i, i < msgs.length →
        (invokeSequence os pipe msgs).getD i (0, none) =
          xpc_pipe_routine os pipe (msgs.getD i emptyRequest)) := by
  constructor
  · intro ms₁ ms₂
    induction ms₁ with
    | nil => rfl
    | cons m rest ih => simp [invokeSequence, ih]
  · intro msgs
    induction msgs with
    | nil =>
      intro i hi
      simp at hi
    | cons m rest ih =>
      intro i hi
      cases i with
      | zero => rfl
      | succ j =>
        have hj : j < rest.length := by simpa using hi
        simpa only [invokeSequence, List.getD_cons_succ] using ih j hj

/-- Witness for C10 on the concrete host: the second of two invoke calls
on the channel over port 100 equals a fresh single call. -/
theorem repeated_invoke_independent_witness :
    1 < ([emptyRequest, emptyRequest] : List xpc_object_t).length ∧
    (invokeSequence demoOS (xpc_pipe_create_from_port 100 0)
        [emptyRequest, emptyRequest]).getD 1 (0, none) =
      xpc_pipe_routine demoOS (xpc_pipe_create_from_port 100 0)
        (([emptyRequest, emptyRequest] : List xpc_object_t).getD 1 emptyRequest) :=
  ⟨by decide,
    (repeated_invoke_independent demoOS (xpc_pipe_create_from_port 100 0)).2
      [emptyRequest, emptyRequest] 1 (by decide)⟩

end Core
